import Mathlib

/-!
# Payment gateway: shallow embedding and verification

This file embeds the core of the payment-gateway service — the domain
validation rules (`Card.Validate`, `Payment.Validate`), the bank-client
response classification (`HTTPBankClient.ProcessPayment`'s status-code
switch), the in-memory payments repository, the response models, and the
payment service (`PaymentService.ProcessPayment` / `GetPayment`) — and
proves the specified properties about them.

Modelling conventions:
* Go strings are Lean `String`s (sequences of characters); `len` on the
  ASCII data these functions handle coincides with `String.length`.
* Go `int` is `Int`; Go `error` results become `Option` / `Except` values
  with a dedicated inductive error type per layer.
* `time.Now()` is passed explicitly as a `Now` value (year, month).
* `uuid.New().String()` (an external library producing globally unique
  identifiers) is modelled as a fresh-identifier supply drawn from a
  counter in the service state: each call consumes the counter and yields
  a non-empty identifier, distinct identifiers for distinct counter values.
* The repository's map is a function `String → Option Payment`; the
  service state additionally keeps a log of every `Save` invocation so
  that "Save is never invoked" is directly expressible.
-/

namespace PaymentGateway

/-- Domain-specific errors (internal/domain/errors.go). -/
inductive DomainError where
  | cardNumberRequired
  | cardNumberInvalid
  | cardNumberNotNumeric
  | cvvRequired
  | cvvInvalid
  | cvvNotNumeric
  | expiryMonthRequired
  | expiryMonthInvalid
  | expiryYearRequired
  | expiryDateInPast
  | currencyRequired
  | currencyInvalid
  | amountRequired
  | amountInvalid
  | paymentNotFound
deriving DecidableEq

/-- Payment status (internal/domain/payment.go). -/
inductive PaymentStatus where
  | Authorized
  | Declined
  | Rejected
deriving DecidableEq

/-- Go struct `Card` (internal/domain/card.go): number, expiry month/year, CVV. -/
structure Card where
  Number : String
  ExpiryMonth : Int
  ExpiryYear : Int
  CVV : String
deriving DecidableEq

/-- The numeric value of a digit string, most significant digit first
(the accumulator loop inside Go's `strconv.ParseUint` for base 10). -/
def digitsToNat (l : List Char) : Nat :=
  l.foldl (fun acc c => 10 * acc + (c.toNat - 48)) 0

/-- Predicate `isNumeric` (card.go): `strconv.ParseUint(s, 10, 64)` succeeds exactly
when `s` is non-empty, every character is a decimal digit, and the value
fits in 64 bits. -/
def isNumeric (s : String) : Bool :=
  s ≠ "" && s.data.all Char.isDigit && digitsToNat s.data < 2 ^ 64

/-- Method `Card.validateCardNumber` (card.go). -/
def Card.validateCardNumber (c : Card) : Option DomainError :=
  if c.Number = "" then
    some .cardNumberRequired
  else if c.Number.length < 14 || c.Number.length > 19 then
    some .cardNumberInvalid
  else if !isNumeric c.Number then
    some .cardNumberNotNumeric
  else
    none

/-- The validation-time clock: `time.Now().Year()` and
`int(time.Now().Month())`, passed explicitly. -/
structure Now where
  year : Int
  month : Int
deriving DecidableEq

/-- Method `Card.validateExpiry` (card.go). -/
def Card.validateExpiry (now : Now) (c : Card) : Option DomainError :=
  if c.ExpiryMonth = 0 then
    some .expiryMonthRequired
  else if c.ExpiryMonth < 1 || c.ExpiryMonth > 12 then
    some .expiryMonthInvalid
  else if c.ExpiryYear = 0 then
    some .expiryYearRequired
  else if c.ExpiryYear < now.year then
    some .expiryDateInPast
  else if c.ExpiryYear = now.year && c.ExpiryMonth < now.month then
    some .expiryDateInPast
  else
    none

/-- Method `Card.validateCVV` (card.go). -/
def Card.validateCVV (c : Card) : Option DomainError :=
  if c.CVV = "" then
    some .cvvRequired
  else if c.CVV.length < 3 || c.CVV.length > 4 then
    some .cvvInvalid
  else if !isNumeric c.CVV then
    some .cvvNotNumeric
  else
    none

/-- Method `Card.Validate` (card.go): number, then expiry, then CVV; first
failure wins. -/
def Card.Validate (now : Now) (c : Card) : Option DomainError :=
  match c.validateCardNumber with
  | some e => some e
  | none =>
    match c.validateExpiry now with
    | some e => some e
    | none => c.validateCVV

/-- Method `Card.GetLastFourDigits` (card.go): the whole number when shorter
than 4 characters, otherwise the final 4 characters. -/
def Card.GetLastFourDigits (c : Card) : String :=
  if c.Number.length < 4 then
    c.Number
  else
    String.mk (c.Number.data.drop (c.Number.length - 4))

example : Card.validateCardNumber ⟨"1234567890123456", 12, 2026, "123"⟩ = none := by decide
example : Card.validateCardNumber ⟨"1234567890123", 12, 2026, "123"⟩ =
    some .cardNumberInvalid := by decide
example : Card.validateCardNumber ⟨"1234 5678 9012 3456", 12, 2026, "123"⟩ =
    some .cardNumberNotNumeric := by decide
example : Card.GetLastFourDigits ⟨"1234567890123456", 12, 2026, "123"⟩ = "3456" := by decide
example : Card.GetLastFourDigits ⟨"123", 12, 2026, "123"⟩ = "123" := by decide
example : Card.validateExpiry ⟨2025, 10⟩ ⟨"1234567890123456", 9, 2025, "123"⟩ =
    some .expiryDateInPast := by decide
example : Card.validateExpiry ⟨2025, 10⟩ ⟨"1234567890123456", 10, 2025, "123"⟩ = none := by
  decide

/-- The supported-currency lookup (payment.go): the package-level map
`supportedCurrencies` with keys USD, GBP, EUR (a missing key reads `false`). -/
def supportedCurrencies (s : String) : Bool :=
  s = "USD" || s = "GBP" || s = "EUR"

/-- Go `strings.ToUpper`: map each character to upper case (the inputs here
are ASCII). -/
def toUpperStr (s : String) : String :=
  String.mk (s.data.map Char.toUpper)

/-- Go struct `Payment` (internal/domain/payment.go). -/
structure Payment where
  ID : String
  Card : Card
  Currency : String
  Amount : Int
  Status : PaymentStatus
deriving DecidableEq

/-- Method `Payment.validateCurrency` (payment.go). On success the payment's
stored currency is overwritten with its uppercased form; on failure the
payment is returned as it was. -/
def Payment.validateCurrency (p : Payment) : Payment × Option DomainError :=
  if p.Currency = "" then
    (p, some .currencyRequired)
  else
    let currency := toUpperStr p.Currency
    if currency.length ≠ 3 then
      (p, some .currencyInvalid)
    else if !supportedCurrencies currency then
      (p, some .currencyInvalid)
    else
      ({ p with Currency := currency }, none)

/-- Method `Payment.validateAmount` (payment.go). -/
def Payment.validateAmount (p : Payment) : Option DomainError :=
  if p.Amount ≤ 0 then some .amountInvalid else none

/-- Method `Payment.Validate` (payment.go): card rules, then currency, then
amount; first failure wins. The returned payment is the receiver's state
after the call (the Go method mutates the receiver through a pointer). -/
def Payment.Validate (now : Now) (p : Payment) : Payment × Option DomainError :=
  match p.Card.Validate now with
  | some e => (p, some e)
  | none =>
    match p.validateCurrency with
    | (p', some e) => (p', some e)
    | (p', none) =>
      match p'.validateAmount with
      | some e => (p', some e)
      | none => (p', none)

/-- Method `Payment.SetAuthorized` (payment.go). -/
def Payment.SetAuthorized (p : Payment) : Payment :=
  { p with Status := .Authorized }

/-- Method `Payment.SetDeclined` (payment.go). -/
def Payment.SetDeclined (p : Payment) : Payment :=
  { p with Status := .Declined }

example : toUpperStr "usd" = "USD" := by decide
example :
    Payment.validateCurrency ⟨"", ⟨"1234567890123456", 12, 2026, "123"⟩, "usd", 100, .Rejected⟩ =
      (⟨"", ⟨"1234567890123456", 12, 2026, "123"⟩, "USD", 100, .Rejected⟩, none) := by decide
example :
    Payment.validateCurrency ⟨"", ⟨"1234567890123456", 12, 2026, "123"⟩, "JPY", 100, .Rejected⟩ =
      (⟨"", ⟨"1234567890123456", 12, 2026, "123"⟩, "JPY", 100, .Rejected⟩,
        some .currencyInvalid) := by decide
example :
    (Payment.Validate ⟨2025, 10⟩
      ⟨"", ⟨"1234567890123456", 12, 2026, "123"⟩, "usd", 0, .Rejected⟩).2 =
      some .amountInvalid := by decide
example :
    (Payment.Validate ⟨2025, 10⟩
      ⟨"", ⟨"1234567890123456", 12, 2026, "123"⟩, "usd", 0, .Rejected⟩).1.Currency =
      "USD" := by decide

/-- Go struct `BankResponse` (internal/client/bank_client.go): the decoded body of a
successful authorizer response. -/
structure BankResponse where
  Authorized : Bool
  AuthorizationCode : String
deriving DecidableEq

/-- The adapter's failure classification (the error cases of
`HTTPBankClient.ProcessPayment`). -/
inductive BankError where
  /-- Status 200 with a body `json.Unmarshal` cannot decode. -/
  | decodeError
  /-- Status 400: "bank rejected request", carrying the raw response body. -/
  | rejected (msg : String)
  /-- Status 503: "bank service unavailable". -/
  | serviceUnavailable
  /-- Any other status: "unexpected response from bank". -/
  | unexpected (status : Int) (body : String)
  /-- Network-level failure before any status is read (send/read error,
  timeout). -/
  | transport (msg : String)
deriving DecidableEq

/-- The status-code switch of `HTTPBankClient.ProcessPayment`
(bank_client.go): the body's JSON decoding is given as
`decoded : Option BankResponse`, the result of `json.Unmarshal` on
`body`. -/
def classifyBankResponse (statusCode : Int) (decoded : Option BankResponse)
    (body : String) : Except BankError BankResponse :=
  if statusCode = 200 then
    match decoded with
    | some r => .ok r
    | none => .error .decodeError
  else if statusCode = 400 then
    .error (.rejected body)
  else if statusCode = 503 then
    .error .serviceUnavailable
  else
    .error (.unexpected statusCode body)

/-- Go struct `BankRequest` (bank_client.go): the wire format sent to the bank. -/
structure BankRequest where
  CardNumber : String
  ExpiryDate : String
  Currency : String
  Amount : Int
  CVV : String
deriving DecidableEq

/-- Zero-padded `fmt.Sprintf("%02d/%d", month, year)` for the non-negative
values card validation admits. -/
def expiryDateString (month year : Int) : String :=
  (if month < 10 && 0 ≤ month then "0" ++ toString month else toString month)
    ++ "/" ++ toString year

/-- Method `HTTPBankClient.convertTobankRequest` (bank_client.go). -/
def convertTobankRequest (p : Payment) : BankRequest :=
  { CardNumber := p.Card.Number
    ExpiryDate := expiryDateString p.Card.ExpiryMonth p.Card.ExpiryYear
    Currency := p.Currency
    Amount := p.Amount
    CVV := p.Card.CVV }

/-- The repository's map (internal/repository/payments_repository.go):
`map[string]*domain.Payment`. -/
def PaymentsMap : Type := String → Option Payment

/-- Method `PaymentsRepository.Save` (payments_repository.go):
`r.payments[payment.ID] = payment` — upsert by id, never fails. -/
def PaymentsRepository.Save (m : PaymentsMap) (p : Payment) : PaymentsMap :=
  fun id => if id = p.ID then some p else m id

/-- Method `PaymentsRepository.FindByID` (payments_repository.go): the record if
present, `none` (Go `nil, nil`) if absent; never an error. -/
def PaymentsRepository.FindByID (m : PaymentsMap) (id : String) : Option Payment :=
  m id

/-- The empty repository (`NewPaymentsRepository`). -/
def PaymentsRepository.empty : PaymentsMap :=
  fun _ => none

/-- The string form of a `PaymentStatus` (`string(payment.Status)`). -/
def PaymentStatus.toStr : PaymentStatus → String
  | .Authorized => "Authorized"
  | .Declined => "Declined"
  | .Rejected => "Rejected"

/-- Go struct `GetPaymentResponse` (internal/models/payment.go): the outward view of
a stored payment — note it has a `CardNumberLastFour` field and no field
for the full number or the CVV. -/
structure GetPaymentResponse where
  ID : String
  Status : String
  CardNumberLastFour : String
  ExpiryMonth : Int
  ExpiryYear : Int
  Currency : String
  Amount : Int
deriving DecidableEq

/-- Function `ToGetPaymentResponse` (models/payment.go). -/
def ToGetPaymentResponse (p : Payment) : GetPaymentResponse :=
  { ID := p.ID
    Status := p.Status.toStr
    CardNumberLastFour := p.Card.GetLastFourDigits
    ExpiryMonth := p.Card.ExpiryMonth
    ExpiryYear := p.Card.ExpiryYear
    Currency := p.Currency
    Amount := p.Amount }

/-- Identifier generation `uuid.New().String()` modelled as an identifier drawn from the
service-state counter: non-empty, and distinct for distinct counter
values (the library's guarantee the service relies on). -/
def uuidString (n : Nat) : String :=
  String.mk (List.replicate (n + 1) 'u')

/-- The service's error classification (internal/service/payment_service.go):
each constructor wraps (`%w`) the underlying failure. -/
inductive ServiceError where
  /-- "failed to process payment with bank: %w" wrapping the adapter's
  failure. -/
  | bankFailed (e : BankError)
  /-- "failed to save payment: %w" (unreachable with the in-memory
  repository, whose `Save` never fails). -/
  | saveFailed (msg : String)
  /-- Error `domain.ErrPaymentNotFound`, raised by `GetPayment` only. -/
  | paymentNotFound
deriving DecidableEq

/-- The mutable state `PaymentService.ProcessPayment` touches: the
repository map, a log of every `Save` invocation, and the fresh-identifier
counter standing for the uuid source. -/
structure ServiceState where
  repo : PaymentsMap
  saveLog : List Payment
  nextUuid : Nat

/-- Method `PaymentService.ProcessPayment` (payment_service.go): assign a fresh
id, call the bank; on bank failure return the wrapped error and persist
nothing; on success set status from the `authorized` flag, save, and
return the finalized payment. The bank client is passed as a function
(the `BankClient` interface). -/
def PaymentService.ProcessPayment (bank : Payment → Except BankError BankResponse)
    (s : ServiceState) (p : Payment) : Except ServiceError Payment × ServiceState :=
  let p1 := { p with ID := uuidString s.nextUuid }
  let s1 : ServiceState := { s with nextUuid := s.nextUuid + 1 }
  match bank p1 with
  | .error e => (.error (.bankFailed e), s1)
  | .ok resp =>
    let p2 := if resp.Authorized then p1.SetAuthorized else p1.SetDeclined
    (.ok p2,
      { s1 with
          repo := PaymentsRepository.Save s1.repo p2
          saveLog := s1.saveLog ++ [p2] })

/-- Method `PaymentService.GetPayment` (payment_service.go). -/
def PaymentService.GetPayment (s : ServiceState) (id : String) :
    Except ServiceError Payment :=
  match PaymentsRepository.FindByID s.repo id with
  | none => .error .paymentNotFound
  | some p => .ok p

/-! ## Helper lemmas -/

theorem string_length_eq_data (s : String) : s.length = s.data.length := rfl

theorem digit_char_sub_le (c : Char) (h : c.isDigit = true) : c.toNat - 48 ≤ 9 := by
  simp [Char.isDigit] at h
  obtain ⟨h1, h2⟩ := h
  have h3 : c.val.toNat ≤ 57 := h2
  have h4 : c.toNat = c.val.toNat := rfl
  omega

theorem digitsToNat_foldl_lt (l : List Char) (hd : ∀ c ∈ l, c.isDigit = true) :
    ∀ acc : Nat,
      l.foldl (fun acc c => 10 * acc + (c.toNat - 48)) acc < (acc + 1) * 10 ^ l.length := by
  induction l with
  | nil =>
    intro acc
    simp
  | cons c l ih =>
    intro acc
    have hc : c.toNat - 48 ≤ 9 := digit_char_sub_le c (hd c (by simp))
    have hl : ∀ x ∈ l, x.isDigit = true := fun x hx => hd x (by simp [hx])
    have h1 := ih hl (10 * acc + (c.toNat - 48))
    simp only [List.foldl_cons, List.length_cons]
    refine lt_of_lt_of_le h1 ?_
    calc (10 * acc + (c.toNat - 48) + 1) * 10 ^ l.length
        ≤ ((acc + 1) * 10) * 10 ^ l.length :=
          Nat.mul_le_mul_right _ (by omega)
      _ = (acc + 1) * 10 ^ (l.length + 1) := by ring

theorem digitsToNat_lt (l : List Char) (hd : ∀ c ∈ l, c.isDigit = true) :
    digitsToNat l < 10 ^ l.length := by
  have h := digitsToNat_foldl_lt l hd 0
  simpa [digitsToNat] using h

theorem isNumeric_of_digits (s : String) (h1 : s.data ≠ [])
    (h2 : ∀ c ∈ s.data, c.isDigit = true) (h3 : s.data.length ≤ 19) :
    isNumeric s = true := by
  have hv : digitsToNat s.data < 2 ^ 64 := by
    have ha := digitsToNat_lt s.data h2
    have hb : (10 : Nat) ^ s.data.length ≤ 10 ^ 19 :=
      Nat.pow_le_pow_right (by norm_num) h3
    have hc : (10 : Nat) ^ 19 < 2 ^ 64 := by norm_num
    omega
  have hs : s ≠ "" := by
    intro he
    apply h1
    rw [he]
  simp [isNumeric, hs]
  refine ⟨h2, ?_⟩
  calc digitsToNat s.data < 2 ^ 64 := hv
    _ = 18446744073709551616 := by norm_num

theorem uuidString_length (n : Nat) : (uuidString n).length = n + 1 := by
  simp [uuidString, string_length_eq_data]

theorem uuidString_ne_empty (n : Nat) : uuidString n ≠ "" := by
  intro h
  have hl := congrArg String.length h
  rw [uuidString_length] at hl
  simp at hl

theorem uuidString_ne (m n : Nat) (h : m ≠ n) : uuidString m ≠ uuidString n := by
  intro he
  have hl := congrArg String.length he
  rw [uuidString_length, uuidString_length] at hl
  omega

theorem getLastFour_of_short (c : Card) (h : c.Number.length < 4) :
    c.GetLastFourDigits = c.Number := by
  simp [Card.GetLastFourDigits, h]

theorem getLastFour_data (c : Card) (h : 4 ≤ c.Number.length) :
    c.GetLastFourDigits.data = c.Number.data.drop (c.Number.length - 4) := by
  have hn : ¬ c.Number.length < 4 := by omega
  simp [Card.GetLastFourDigits, hn]

theorem getLastFour_length (c : Card) (h : 4 ≤ c.Number.length) :
    c.GetLastFourDigits.length = 4 := by
  have h' := h
  rw [string_length_eq_data] at h'
  rw [string_length_eq_data, getLastFour_data c h, List.length_drop,
    string_length_eq_data]
  omega

theorem getLastFour_ne_number (c : Card) (h : 14 ≤ c.Number.length) :
    c.GetLastFourDigits ≠ c.Number := by
  intro he
  have hl := congrArg String.length he
  rw [getLastFour_length c (by omega)] at hl
  omega

/-! ## Claim theorems -/

/-- C10: for every card whose number has fewer than 4 characters,
`GetLastFourDigits` returns the entire number unmasked; for every card
whose number has 4 or more characters, it returns exactly the final 4
characters (the suffix whose removal leaves the first `length - 4`
characters). -/
theorem C10_getLastFourDigits_spec (c : Card) :
    (c.Number.length < 4 → c.GetLastFourDigits = c.Number)
    ∧ (4 ≤ c.Number.length →
        c.GetLastFourDigits.length = 4
        ∧ c.Number.data =
            c.Number.data.take (c.Number.length - 4) ++ c.GetLastFourDigits.data) := by
  refine ⟨getLastFour_of_short c, fun h => ⟨getLastFour_length c h, ?_⟩⟩
  rw [getLastFour_data c h, List.take_append_drop]

/-- Witness for C10 at two concrete cards, one on each side of the
4-character threshold. -/
theorem C10_witness :
    Card.GetLastFourDigits ⟨"123", 1, 2030, "123"⟩ = "123"
    ∧ (Card.GetLastFourDigits ⟨"1234567890123456", 1, 2030, "123"⟩).length = 4 := by
  constructor
  · exact (C10_getLastFourDigits_spec ⟨"123", 1, 2030, "123"⟩).1 (by decide)
  · exact ((C10_getLastFourDigits_spec ⟨"1234567890123456", 1, 2030, "123"⟩).2
      (by decide)).1

/-- C8: card-number validation checks its rules in order with first
failure winning: empty number fails with `cardNumberRequired`; a
non-empty number of length outside `[14, 19]` fails with
`cardNumberInvalid` regardless of its characters; a number of valid
length containing a non-digit character fails with
`cardNumberNotNumeric`; a digit string of length 14 to 19 passes. -/
theorem C8_validateCardNumber_spec (c : Card) :
    (c.Number = "" → c.validateCardNumber = some .cardNumberRequired)
    ∧ (c.Number ≠ "" → (c.Number.length < 14 ∨ 19 < c.Number.length) →
        c.validateCardNumber = some .cardNumberInvalid)
    ∧ (14 ≤ c.Number.length → c.Number.length ≤ 19 →
        (∃ ch ∈ c.Number.data, ¬ ch.isDigit = true) →
        c.validateCardNumber = some .cardNumberNotNumeric)
    ∧ (14 ≤ c.Number.length → c.Number.length ≤ 19 →
        (∀ ch ∈ c.Number.data, ch.isDigit = true) →
        c.validateCardNumber = none) := by
  refine ⟨?_, ?_, ?_, ?_⟩
  · intro h
    simp [Card.validateCardNumber, h]
  · intro hne hlen
    have h14 : c.Number.length < 14 ∨ c.Number.length > 19 := by omega
    simp only [Card.validateCardNumber, hne, if_false]
    rcases h14 with h | h <;> simp [h]
  · intro h14 h19 hex
    obtain ⟨ch, hch, hnd⟩ := hex
    have hne : c.Number ≠ "" := by
      intro he
      rw [he] at h14
      simp [string_length_eq_data] at h14
    have hall : c.Number.data.all Char.isDigit = false := by
      rw [Bool.eq_false_iff]
      intro htrue
      rw [List.all_eq_true] at htrue
      exact hnd (htrue ch hch)
    have hnum : isNumeric c.Number = false := by
      simp [isNumeric, hall]
    have hl1 : ¬ c.Number.length < 14 := by omega
    have hl2 : ¬ c.Number.length > 19 := by omega
    simp [Card.validateCardNumber, hne, hl1, hl2, hnum]
  · intro h14 h19 hall
    have hne : c.Number ≠ "" := by
      intro he
      rw [he] at h14
      simp [string_length_eq_data] at h14
    have hdata : c.Number.data ≠ [] := by
      intro he
      rw [string_length_eq_data, he] at h14
      simp at h14
    have hnum : isNumeric c.Number = true :=
      isNumeric_of_digits c.Number hdata hall
        (by rw [← string_length_eq_data]; exact h19)
    have hl1 : ¬ c.Number.length < 14 := by omega
    have hl2 : ¬ c.Number.length > 19 := by omega
    simp [Card.validateCardNumber, hne, hl1, hl2, hnum]

/-- Witness for C8 at concrete numbers exercising all four rules. -/
theorem C8_witness :
    Card.validateCardNumber ⟨"", 1, 2030, "123"⟩ = some .cardNumberRequired
    ∧ Card.validateCardNumber ⟨"1234567890123", 1, 2030, "123"⟩ =
        some .cardNumberInvalid
    ∧ Card.validateCardNumber ⟨"1234-5678-9012-34", 1, 2030, "123"⟩ =
        some .cardNumberNotNumeric
    ∧ Card.validateCardNumber ⟨"1234567890123456", 1, 2030, "123"⟩ = none := by
  refine ⟨?_, ?_, ?_, ?_⟩
  · exact (C8_validateCardNumber_spec ⟨"", 1, 2030, "123"⟩).1 rfl
  · exact (C8_validateCardNumber_spec ⟨"1234567890123", 1, 2030, "123"⟩).2.1
      (by decide) (by decide)
  · exact (C8_validateCardNumber_spec ⟨"1234-5678-9012-34", 1, 2030, "123"⟩).2.2.1
      (by decide) (by decide) ⟨'-', by decide, by decide⟩
  · exact (C8_validateCardNumber_spec ⟨"1234567890123456", 1, 2030, "123"⟩).2.2.2
      (by decide) (by decide) (by decide)

/-- C6: for every card with month in `[1, 12]` and non-zero year, expiry
validation is exactly the lexicographic comparison of
`(expiryYear, expiryMonth)` against the current `(year, month)`: it fails
with `expiryDateInPast` precisely when the year is strictly less than the
current year, or the year is equal and the month strictly less than the
current month; otherwise it passes (any future year passes regardless of
month, and the current month passes — a day of month is not even an input
to the check). -/
theorem C6_validateExpiry_lex (now : Now) (c : Card)
    (hm1 : 1 ≤ c.ExpiryMonth) (hm2 : c.ExpiryMonth ≤ 12) (hy : c.ExpiryYear ≠ 0) :
    c.validateExpiry now =
      (if c.ExpiryYear < now.year
          ∨ (c.ExpiryYear = now.year ∧ c.ExpiryMonth < now.month)
        then some .expiryDateInPast
        else none) := by
  have hm0 : c.ExpiryMonth ≠ 0 := by omega
  have hmr : ¬ (c.ExpiryMonth < 1 ∨ c.ExpiryMonth > 12) := by omega
  simp only [Card.validateExpiry, hm0, hy, if_false]
  by_cases h1 : c.ExpiryYear < now.year
  · simp [hmr, h1]
  · by_cases h2 : c.ExpiryYear = now.year ∧ c.ExpiryMonth < now.month
    · simp [hmr, h1, h2.1, h2.2]
    · have h3 : ¬ (c.ExpiryYear = now.year ∧ c.ExpiryMonth < now.month) := h2
      simp [hmr, h1, h3]

/-- Witness for C6: at `now = (2025, 10)`, month 9 of 2025 is in the
past, month 10 of 2025 and month 1 of 2026 are valid. -/
theorem C6_witness :
    Card.validateExpiry ⟨2025, 10⟩ ⟨"1234567890123456", 9, 2025, "123"⟩ =
        some .expiryDateInPast
    ∧ Card.validateExpiry ⟨2025, 10⟩ ⟨"1234567890123456", 10, 2025, "123"⟩ = none
    ∧ Card.validateExpiry ⟨2025, 10⟩ ⟨"1234567890123456", 1, 2026, "123"⟩ = none := by
  refine ⟨?_, ?_, ?_⟩
  · have h := C6_validateExpiry_lex ⟨2025, 10⟩ ⟨"1234567890123456", 9, 2025, "123"⟩
      (by decide) (by decide) (by decide)
    rw [h]
    decide
  · have h := C6_validateExpiry_lex ⟨2025, 10⟩ ⟨"1234567890123456", 10, 2025, "123"⟩
      (by decide) (by decide) (by decide)
    rw [h]
    decide
  · have h := C6_validateExpiry_lex ⟨2025, 10⟩ ⟨"1234567890123456", 1, 2026, "123"⟩
      (by decide) (by decide) (by decide)
    rw [h]
    decide

/-- C7: for every payment whose card validation passes, currency
validation fails with `currencyRequired` on the empty currency, fails
with `currencyInvalid` when the uppercased currency does not have length
3 or is not one of USD, GBP, EUR, and on success replaces the payment's
stored currency with its uppercased form. -/
theorem C7_validateCurrency_spec (now : Now) (p : Payment)
    (_hcard : p.Card.Validate now = none) :
    (p.Currency = "" → p.validateCurrency = (p, some .currencyRequired))
    ∧ (p.Currency ≠ "" →
        ((toUpperStr p.Currency).length ≠ 3 ∨
          ¬ (toUpperStr p.Currency = "USD" ∨ toUpperStr p.Currency = "GBP" ∨
              toUpperStr p.Currency = "EUR")) →
        p.validateCurrency = (p, some .currencyInvalid))
    ∧ (p.Currency ≠ "" → (toUpperStr p.Currency).length = 3 →
        (toUpperStr p.Currency = "USD" ∨ toUpperStr p.Currency = "GBP" ∨
          toUpperStr p.Currency = "EUR") →
        p.validateCurrency = ({ p with Currency := toUpperStr p.Currency }, none)) := by
  refine ⟨?_, ?_, ?_⟩
  · intro h
    simp [Payment.validateCurrency, h]
  · intro hne hbad
    rcases hbad with h3 | hmem
    · simp [Payment.validateCurrency, hne, h3]
    · have hsup : supportedCurrencies (toUpperStr p.Currency) = false := by
        rw [Bool.eq_false_iff]
        intro htrue
        simp [supportedCurrencies] at htrue
        tauto
      by_cases h3 : (toUpperStr p.Currency).length = 3
      · simp [Payment.validateCurrency, hne, h3, hsup]
      · simp [Payment.validateCurrency, hne, h3]
  · intro hne h3 hmem
    have hsup : supportedCurrencies (toUpperStr p.Currency) = true := by
      simp [supportedCurrencies]
      tauto
    simp [Payment.validateCurrency, hne, h3, hsup]

/-- Witness for C7: with a valid card, the lowercase input "usd" passes
currency validation and the stored currency becomes "USD", while "" and
"JPY" fail with the required and invalid errors. -/
theorem C7_witness :
    Payment.validateCurrency
        ⟨"", ⟨"1234567890123456", 12, 2026, "123"⟩, "usd", 100, .Rejected⟩ =
      (⟨"", ⟨"1234567890123456", 12, 2026, "123"⟩, "USD", 100, .Rejected⟩, none)
    ∧ Payment.validateCurrency
        ⟨"", ⟨"1234567890123456", 12, 2026, "123"⟩, "", 100, .Rejected⟩ =
      (⟨"", ⟨"1234567890123456", 12, 2026, "123"⟩, "", 100, .Rejected⟩,
        some .currencyRequired)
    ∧ Payment.validateCurrency
        ⟨"", ⟨"1234567890123456", 12, 2026, "123"⟩, "JPY", 100, .Rejected⟩ =
      (⟨"", ⟨"1234567890123456", 12, 2026, "123"⟩, "JPY", 100, .Rejected⟩,
        some .currencyInvalid) := by
  refine ⟨?_, ?_, ?_⟩
  · have h := (C7_validateCurrency_spec ⟨2025, 10⟩
      ⟨"", ⟨"1234567890123456", 12, 2026, "123"⟩, "usd", 100, .Rejected⟩
      (by decide)).2.2 (by decide) (by decide) (by decide)
    rw [h]
    decide
  · exact (C7_validateCurrency_spec ⟨2025, 10⟩
      ⟨"", ⟨"1234567890123456", 12, 2026, "123"⟩, "", 100, .Rejected⟩
      (by decide)).1 rfl
  · exact (C7_validateCurrency_spec ⟨2025, 10⟩
      ⟨"", ⟨"1234567890123456", 12, 2026, "123"⟩, "JPY", 100, .Rejected⟩
      (by decide)).2.1 (by decide) (Or.inr (by decide))

/-- C9: saving a record and immediately looking it up by the same id
returns a record with identical status, currency, and amount (here: the
identical record); `Save` upserts by id (a later save for the same id
wins) and `FindByID` is unaffected at other ids. -/
theorem C9_repository_roundtrip (m : PaymentsMap) (p q : Payment) (id' : String) :
    PaymentsRepository.FindByID (PaymentsRepository.Save m p) p.ID = some p
    ∧ (∃ r, PaymentsRepository.FindByID (PaymentsRepository.Save m p) p.ID = some r
        ∧ r.Status = p.Status ∧ r.Currency = p.Currency ∧ r.Amount = p.Amount)
    ∧ (id' ≠ p.ID →
        PaymentsRepository.FindByID (PaymentsRepository.Save m p) id' =
          PaymentsRepository.FindByID m id')
    ∧ (q.ID = p.ID →
        PaymentsRepository.FindByID
          (PaymentsRepository.Save (PaymentsRepository.Save m q) p) p.ID = some p) := by
  refine ⟨?_, ⟨p, ?_, rfl, rfl, rfl⟩, ?_, ?_⟩
  · simp [PaymentsRepository.FindByID, PaymentsRepository.Save]
  · simp [PaymentsRepository.FindByID, PaymentsRepository.Save]
  · intro h
    simp [PaymentsRepository.FindByID, PaymentsRepository.Save, h]
  · intro _
    simp [PaymentsRepository.FindByID, PaymentsRepository.Save]

/-- Witness for C9: a record saved with status Declined and amount
100/"GBP" round-trips identically, and a save for a different id leaves
other lookups unchanged. -/
theorem C9_witness :
    PaymentsRepository.FindByID
        (PaymentsRepository.Save PaymentsRepository.empty
          ⟨"id-1", ⟨"1234567890123456", 4, 2026, "123"⟩, "GBP", 100, .Declined⟩)
        "id-1" =
      some ⟨"id-1", ⟨"1234567890123456", 4, 2026, "123"⟩, "GBP", 100, .Declined⟩
    ∧ PaymentsRepository.FindByID
        (PaymentsRepository.Save PaymentsRepository.empty
          ⟨"id-1", ⟨"1234567890123456", 4, 2026, "123"⟩, "GBP", 100, .Declined⟩)
        "id-2" =
      PaymentsRepository.FindByID PaymentsRepository.empty "id-2" := by
  constructor
  · exact (C9_repository_roundtrip PaymentsRepository.empty
      ⟨"id-1", ⟨"1234567890123456", 4, 2026, "123"⟩, "GBP", 100, .Declined⟩
      ⟨"id-1", ⟨"1234567890123456", 4, 2026, "123"⟩, "GBP", 100, .Declined⟩ "id-2").1
  · exact (C9_repository_roundtrip PaymentsRepository.empty
      ⟨"id-1", ⟨"1234567890123456", 4, 2026, "123"⟩, "GBP", 100, .Declined⟩
      ⟨"id-1", ⟨"1234567890123456", 4, 2026, "123"⟩, "GBP", 100, .Declined⟩
      "id-2").2.2.1 (by decide)

/-- C5: the adapter classifies every bank HTTP response exactly by status
code — 200 with a decodable body yields the decoded outcome (authorized
flag and authorization code), 200 with an undecodable body a decode-error
failure, 400 a client-rejection failure carrying the raw body, 503 a
service-unavailable failure, anything else a generic failure — and a
classified success arises only from a decoded 200 response, never as an
implicit decline from a failure path. -/
theorem C5_classifyBankResponse_spec (status : Int) (decoded : Option BankResponse)
    (body : String) :
    (status = 200 → ∀ r, decoded = some r →
        classifyBankResponse status decoded body = .ok r)
    ∧ (status = 200 → decoded = none →
        classifyBankResponse status decoded body = .error .decodeError)
    ∧ (status = 400 → classifyBankResponse status decoded body = .error (.rejected body))
    ∧ (status = 503 →
        classifyBankResponse status decoded body = .error .serviceUnavailable)
    ∧ (status ≠ 200 → status ≠ 400 → status ≠ 503 →
        classifyBankResponse status decoded body = .error (.unexpected status body))
    ∧ (∀ r, classifyBankResponse status decoded body = .ok r →
        status = 200 ∧ decoded = some r) := by
  refine ⟨?_, ?_, ?_, ?_, ?_, ?_⟩
  · intro h r hr
    simp [classifyBankResponse, h, hr]
  · intro h hr
    simp [classifyBankResponse, h, hr]
  · intro h
    simp [classifyBankResponse, h]
  · intro h
    simp [classifyBankResponse, h]
  · intro h1 h2 h3
    simp [classifyBankResponse, h1, h2, h3]
  · intro r h
    unfold classifyBankResponse at h
    by_cases h200 : status = 200
    · rw [if_pos h200] at h
      cases hd : decoded with
      | none => rw [hd] at h; simp at h
      | some r' =>
        rw [hd] at h
        simp at h
        exact ⟨h200, congrArg some h⟩
    · rw [if_neg h200] at h
      by_cases h400 : status = 400
      · rw [if_pos h400] at h
        simp at h
      · rw [if_neg h400] at h
        by_cases h503 : status = 503
        · rw [if_pos h503] at h
          simp at h
        · rw [if_neg h503] at h
          simp at h

/-- Witness for C5 exercising each status class at concrete responses. -/
theorem C5_witness :
    classifyBankResponse 200 (some ⟨true, "auth-123"⟩) "" = .ok ⟨true, "auth-123"⟩
    ∧ classifyBankResponse 200 none "invalid json" = .error .decodeError
    ∧ classifyBankResponse 400 none "Invalid card number" =
        .error (.rejected "Invalid card number")
    ∧ classifyBankResponse 503 none "" = .error .serviceUnavailable
    ∧ classifyBankResponse 418 none "teapot" = .error (.unexpected 418 "teapot") := by
  refine ⟨?_, ?_, ?_, ?_, ?_⟩
  · exact (C5_classifyBankResponse_spec 200 (some ⟨true, "auth-123"⟩) "").1 rfl
      ⟨true, "auth-123"⟩ rfl
  · exact (C5_classifyBankResponse_spec 200 none "invalid json").2.1 rfl rfl
  · exact (C5_classifyBankResponse_spec 400 none "Invalid card number").2.2.1 rfl
  · exact (C5_classifyBankResponse_spec 503 none "").2.2.2.1 rfl
  · exact (C5_classifyBankResponse_spec 418 none "teapot").2.2.2.2.1
      (by decide) (by decide) (by decide)

theorem processPayment_fst_ok_id (bank : Payment → Except BankError BankResponse)
    (s : ServiceState) (p q : Payment)
    (h : (PaymentService.ProcessPayment bank s p).1 = .ok q) :
    q.ID = uuidString s.nextUuid := by
  unfold PaymentService.ProcessPayment at h
  simp only [] at h
  cases hb : bank { p with ID := uuidString s.nextUuid } with
  | error e =>
    rw [hb] at h
    simp at h
  | ok resp =>
    rw [hb] at h
    simp only [Except.ok.injEq] at h
    cases hA : resp.Authorized <;>
      simp [hA, Payment.SetAuthorized, Payment.SetDeclined] at h <;>
      rw [← h]

/-- C2: for every payment, if the bank adapter call fails for any reason,
`ProcessPayment` never invokes the store's `Save` (the repository map and
the save log are untouched), returns no record, and reports an error
wrapping the adapter's failure reason. -/
theorem C2_processPayment_adapter_failure
    (bank : Payment → Except BankError BankResponse)
    (s : ServiceState) (p : Payment) (e : BankError)
    (hb : bank { p with ID := uuidString s.nextUuid } = .error e) :
    (PaymentService.ProcessPayment bank s p).1 =
        .error (.bankFailed e)
    ∧ (PaymentService.ProcessPayment bank s p).2.repo = s.repo
    ∧ (PaymentService.ProcessPayment bank s p).2.saveLog = s.saveLog := by
  unfold PaymentService.ProcessPayment
  simp only []
  rw [hb]
  exact ⟨rfl, rfl, rfl⟩

/-- Witness for C2: a service-unavailable adapter failure yields a
wrapped adapter error and leaves the repository and save log empty. -/
theorem C2_witness :
    (PaymentService.ProcessPayment (fun _ => .error .serviceUnavailable)
        ⟨PaymentsRepository.empty, [], 0⟩
        ⟨"", ⟨"2222405343248870", 4, 2026, "123"⟩, "GBP", 100, .Rejected⟩).1 =
      .error (.bankFailed .serviceUnavailable)
    ∧ (PaymentService.ProcessPayment (fun _ => .error .serviceUnavailable)
        ⟨PaymentsRepository.empty, [], 0⟩
        ⟨"", ⟨"2222405343248870", 4, 2026, "123"⟩, "GBP", 100, .Rejected⟩).2.saveLog =
      [] :=
  ⟨(C2_processPayment_adapter_failure (fun _ => .error .serviceUnavailable)
      ⟨PaymentsRepository.empty, [], 0⟩
      ⟨"", ⟨"2222405343248870", 4, 2026, "123"⟩, "GBP", 100, .Rejected⟩
      .serviceUnavailable rfl).1,
    (C2_processPayment_adapter_failure (fun _ => .error .serviceUnavailable)
      ⟨PaymentsRepository.empty, [], 0⟩
      ⟨"", ⟨"2222405343248870", 4, 2026, "123"⟩, "GBP", 100, .Rejected⟩
      .serviceUnavailable rfl).2.2⟩

/-- C1: for every validated payment, when the bank adapter call succeeds
`ProcessPayment` finalizes the status from the response's authorized flag
(Authorized when true, Declined when false), persists the finalized
record via the store (it is retrievable by its id and was saved), and
returns a record with a non-empty id; any later successful
`ProcessPayment` call from the resulting state yields a different id. -/
theorem C1_processPayment_adapter_success
    (bank : Payment → Except BankError BankResponse)
    (s : ServiceState) (p : Payment) (now : Now) (resp : BankResponse)
    (_hval : (Payment.Validate now p).2 = none)
    (hb : bank { p with ID := uuidString s.nextUuid } = .ok resp) :
    ∃ q s',
      PaymentService.ProcessPayment bank s p = (.ok q, s')
      ∧ q.Status = (if resp.Authorized then PaymentStatus.Authorized else .Declined)
      ∧ PaymentsRepository.FindByID s'.repo q.ID = some q
      ∧ s'.saveLog = s.saveLog ++ [q]
      ∧ q.ID ≠ ""
      ∧ (∀ bank2 p2 q2,
          (PaymentService.ProcessPayment bank2 s' p2).1 = .ok q2 → q2.ID ≠ q.ID) := by
  have hrun :
      PaymentService.ProcessPayment bank s p =
        (.ok (if resp.Authorized
            then ({ p with ID := uuidString s.nextUuid } : Payment).SetAuthorized
            else ({ p with ID := uuidString s.nextUuid } : Payment).SetDeclined),
          { repo := PaymentsRepository.Save s.repo
              (if resp.Authorized
                then ({ p with ID := uuidString s.nextUuid } : Payment).SetAuthorized
                else ({ p with ID := uuidString s.nextUuid } : Payment).SetDeclined)
            saveLog := s.saveLog ++
              [if resp.Authorized
                then ({ p with ID := uuidString s.nextUuid } : Payment).SetAuthorized
                else ({ p with ID := uuidString s.nextUuid } : Payment).SetDeclined]
            nextUuid := s.nextUuid + 1 }) := by
    unfold PaymentService.ProcessPayment
    simp only []
    rw [hb]
  refine ⟨_, _, hrun, ?_, ?_, rfl, ?_, ?_⟩
  · cases hA : resp.Authorized <;>
      simp [hA, Payment.SetAuthorized, Payment.SetDeclined]
  · simp [PaymentsRepository.FindByID, PaymentsRepository.Save]
  · cases hA : resp.Authorized <;>
      simp [hA, Payment.SetAuthorized, Payment.SetDeclined, uuidString_ne_empty]
  · intro bank2 p2 q2 h2
    have hid2 := processPayment_fst_ok_id bank2 _ p2 q2 h2
    have hid1 :
        (if resp.Authorized
            then ({ p with ID := uuidString s.nextUuid } : Payment).SetAuthorized
            else ({ p with ID := uuidString s.nextUuid } : Payment).SetDeclined).ID =
          uuidString s.nextUuid := by
      cases hA : resp.Authorized <;>
        simp [hA, Payment.SetAuthorized, Payment.SetDeclined]
    rw [hid2, hid1]
    exact uuidString_ne (s.nextUuid + 1) s.nextUuid (by omega)

/-- Witness for C1: an authorized adapter response on a valid payment
yields a persisted Authorized record with a non-empty id. -/
theorem C1_witness :
    ∃ q s',
      PaymentService.ProcessPayment (fun _ => .ok ⟨true, "auth-code-123"⟩)
          ⟨PaymentsRepository.empty, [], 0⟩
          ⟨"", ⟨"2222405343248877", 4, 2026, "123"⟩, "GBP", 100, .Rejected⟩ =
        (.ok q, s')
      ∧ q.Status =
          (if (⟨true, "auth-code-123"⟩ : BankResponse).Authorized
            then PaymentStatus.Authorized else .Declined)
      ∧ PaymentsRepository.FindByID s'.repo q.ID = some q
      ∧ s'.saveLog = [] ++ [q]
      ∧ q.ID ≠ ""
      ∧ (∀ bank2 p2 q2,
          (PaymentService.ProcessPayment bank2 s' p2).1 = .ok q2 → q2.ID ≠ q.ID) :=
  C1_processPayment_adapter_success (fun _ => .ok ⟨true, "auth-code-123"⟩)
    ⟨PaymentsRepository.empty, [], 0⟩
    ⟨"", ⟨"2222405343248877", 4, 2026, "123"⟩, "GBP", 100, .Rejected⟩
    ⟨2025, 10⟩ ⟨true, "auth-code-123"⟩ (by decide) rfl

/-- C3 counterexample: the repository persists the whole `Payment`, so a
record looked up immediately after `Save` still carries the full 16-digit
card number and the CVV — the full card IS retained in the persisted
record, refuting the claim as stated. -/
theorem C3_counterexample :
    (PaymentsRepository.FindByID
        (PaymentsRepository.Save PaymentsRepository.empty
          ⟨"id-9", ⟨"1234567890123456", 4, 2026, "123"⟩, "GBP", 100, .Declined⟩)
        "id-9").map (fun r => r.Card.Number) = some "1234567890123456"
    ∧ (PaymentsRepository.FindByID
        (PaymentsRepository.Save PaymentsRepository.empty
          ⟨"id-9", ⟨"1234567890123456", 4, 2026, "123"⟩, "GBP", 100, .Declined⟩)
        "id-9").map (fun r => r.Card.CVV) = some "123" := by
  constructor <;> rfl

/-- C3 (amended): the stored domain record retains the full card, but the
outward view derived from a stored record exposes only the card's last
four digits: `ToGetPaymentResponse` is unchanged under any change of the
CVV, unchanged under any change of the number preserving its last four
digits, and for validated numbers (length at least 14) the exposed
`CardNumberLastFour` has length 4 and differs from the full number —
neither the CVV nor the full number is retrievable from the response. -/
theorem C3_response_masks_card (p : Payment) (cvv n : String) :
    (ToGetPaymentResponse p).CardNumberLastFour = p.Card.GetLastFourDigits
    ∧ ToGetPaymentResponse { p with Card := { p.Card with CVV := cvv } } =
        ToGetPaymentResponse p
    ∧ (Card.GetLastFourDigits { p.Card with Number := n } =
          p.Card.GetLastFourDigits →
        ToGetPaymentResponse { p with Card := { p.Card with Number := n } } =
          { ToGetPaymentResponse p with
              ExpiryMonth := ({ p.Card with Number := n } : Card).ExpiryMonth
              ExpiryYear := ({ p.Card with Number := n } : Card).ExpiryYear })
    ∧ (14 ≤ p.Card.Number.length →
        (ToGetPaymentResponse p).CardNumberLastFour.length = 4
        ∧ (ToGetPaymentResponse p).CardNumberLastFour ≠ p.Card.Number) := by
  refine ⟨rfl, rfl, ?_, ?_⟩
  · intro h
    simp [ToGetPaymentResponse, h]
  · intro h
    exact ⟨getLastFour_length p.Card (by omega), getLastFour_ne_number p.Card h⟩

/-- Witness for C3 (amended): two stored records differing only in CVV
produce the same response, and the exposed digits of a 16-digit card are
not the full number. -/
theorem C3_witness :
    ToGetPaymentResponse
        ⟨"id-1", ⟨"1234567890123456", 4, 2026, "999"⟩, "GBP", 100, .Declined⟩ =
      ToGetPaymentResponse
        ⟨"id-1", ⟨"1234567890123456", 4, 2026, "123"⟩, "GBP", 100, .Declined⟩
    ∧ (ToGetPaymentResponse
        ⟨"id-1", ⟨"1234567890123456", 4, 2026, "123"⟩, "GBP", 100,
          .Declined⟩).CardNumberLastFour ≠ "1234567890123456" := by
  constructor
  · exact (C3_response_masks_card
      ⟨"id-1", ⟨"1234567890123456", 4, 2026, "123"⟩, "GBP", 100, .Declined⟩
      "999" "").2.1
  · exact ((C3_response_masks_card
      ⟨"id-1", ⟨"1234567890123456", 4, 2026, "123"⟩, "GBP", 100, .Declined⟩
      "999" "").2.2.2 (by decide)).2

/-- C4 counterexample: a payment with a valid card, currency "usd", and
amount 0 makes `Validate` return the amount error, yet the returned
payment is not the original one — its currency has been normalized to
"USD" by the currency rule that succeeded before the failing amount
rule. -/
theorem C4_counterexample :
    (Payment.Validate ⟨2025, 10⟩
        ⟨"", ⟨"1234567890123456", 12, 2026, "123"⟩, "usd", 0, .Rejected⟩).2 =
      some .amountInvalid
    ∧ (Payment.Validate ⟨2025, 10⟩
        ⟨"", ⟨"1234567890123456", 12, 2026, "123"⟩, "usd", 0, .Rejected⟩).1.Currency =
      "USD"
    ∧ (Payment.Validate ⟨2025, 10⟩
        ⟨"", ⟨"1234567890123456", 12, 2026, "123"⟩, "usd", 0, .Rejected⟩).1 ≠
      ⟨"", ⟨"1234567890123456", 12, 2026, "123"⟩, "usd", 0, .Rejected⟩ := by
  refine ⟨by decide, by decide, by decide⟩

theorem validateCurrency_cases (p : Payment) :
    (∃ e, p.validateCurrency = (p, some e)) ∨
      p.validateCurrency = ({ p with Currency := toUpperStr p.Currency }, none) := by
  unfold Payment.validateCurrency
  by_cases h1 : p.Currency = ""
  · exact Or.inl ⟨.currencyRequired, by simp [h1]⟩
  · by_cases h2 : (toUpperStr p.Currency).length = 3
    · by_cases h3 : supportedCurrencies (toUpperStr p.Currency) = true
      · exact Or.inr (by simp [h1, h2, h3])
      · exact Or.inl ⟨.currencyInvalid, by simp [h1, h2, h3]⟩
    · exact Or.inl ⟨.currencyInvalid, by simp [h1, h2]⟩

/-- C4 (amended): when `Validate` returns an error, the first violated
rule's error is returned and the payment's fields other than the currency
are unchanged; the currency too is unchanged, except that when the
failing rule is the amount rule (so currency validation had already
succeeded) it has been normalized to its uppercased form. -/
theorem C4_validate_error_effects (now : Now) (p p' : Payment) (e : DomainError)
    (h : Payment.Validate now p = (p', some e)) :
    p'.ID = p.ID ∧ p'.Card = p.Card ∧ p'.Amount = p.Amount ∧ p'.Status = p.Status
    ∧ (p'.Currency = p.Currency ∨
        (e = .amountInvalid ∧ p'.Currency = toUpperStr p.Currency)) := by
  unfold Payment.Validate at h
  cases hc : p.Card.Validate now with
  | some e' =>
    rw [hc] at h
    simp only [Prod.mk.injEq, Option.some.injEq] at h
    rw [← h.1]
    exact ⟨rfl, rfl, rfl, rfl, Or.inl rfl⟩
  | none =>
    rw [hc] at h
    rcases validateCurrency_cases p with ⟨e1, hvc⟩ | hvc
    · rw [hvc] at h
      simp only [Prod.mk.injEq, Option.some.injEq] at h
      rw [← h.1]
      exact ⟨rfl, rfl, rfl, rfl, Or.inl rfl⟩
    · rw [hvc] at h
      simp only [] at h
      by_cases ha : p.Amount ≤ 0
      · have hv :
            Payment.validateAmount { p with Currency := toUpperStr p.Currency } =
              some .amountInvalid := by
          simp [Payment.validateAmount, ha]
        rw [hv] at h
        simp only [Prod.mk.injEq, Option.some.injEq] at h
        rw [← h.1]
        exact ⟨rfl, rfl, rfl, rfl, Or.inr ⟨h.2.symm, rfl⟩⟩
      · have hv :
            Payment.validateAmount { p with Currency := toUpperStr p.Currency } =
              none := by
          simp [Payment.validateAmount, ha]
        rw [hv] at h
        simp at h

/-- Witness for C4 (amended) at the concrete failing payment: the amount
error leaves id, card, amount, and status unchanged and normalizes the
currency. -/
theorem C4_witness :
    (⟨"", ⟨"1234567890123456", 12, 2026, "123"⟩, "USD", 0, .Rejected⟩ : Payment).ID =
        (⟨"", ⟨"1234567890123456", 12, 2026, "123"⟩, "usd", 0, .Rejected⟩ : Payment).ID
    ∧ (⟨"", ⟨"1234567890123456", 12, 2026, "123"⟩, "USD", 0,
          .Rejected⟩ : Payment).Card =
        (⟨"", ⟨"1234567890123456", 12, 2026, "123"⟩, "usd", 0,
          .Rejected⟩ : Payment).Card
    ∧ (⟨"", ⟨"1234567890123456", 12, 2026, "123"⟩, "USD", 0,
          .Rejected⟩ : Payment).Amount =
        (⟨"", ⟨"1234567890123456", 12, 2026, "123"⟩, "usd", 0,
          .Rejected⟩ : Payment).Amount
    ∧ (⟨"", ⟨"1234567890123456", 12, 2026, "123"⟩, "USD", 0,
          .Rejected⟩ : Payment).Status =
        (⟨"", ⟨"1234567890123456", 12, 2026, "123"⟩, "usd", 0,
          .Rejected⟩ : Payment).Status
    ∧ ((⟨"", ⟨"1234567890123456", 12, 2026, "123"⟩, "USD", 0,
          .Rejected⟩ : Payment).Currency =
        (⟨"", ⟨"1234567890123456", 12, 2026, "123"⟩, "usd", 0,
          .Rejected⟩ : Payment).Currency
      ∨ (DomainError.amountInvalid = .amountInvalid
        ∧ (⟨"", ⟨"1234567890123456", 12, 2026, "123"⟩, "USD", 0,
            .Rejected⟩ : Payment).Currency =
          toUpperStr (⟨"", ⟨"1234567890123456", 12, 2026, "123"⟩, "usd", 0,
            .Rejected⟩ : Payment).Currency)) :=
  C4_validate_error_effects ⟨2025, 10⟩
    ⟨"", ⟨"1234567890123456", 12, 2026, "123"⟩, "usd", 0, .Rejected⟩
    ⟨"", ⟨"1234567890123456", 12, 2026, "123"⟩, "USD", 0, .Rejected⟩
    .amountInvalid (by decide)

end PaymentGateway
